import Mathlib

/-!
Verification of `fs_mgr/fs_mgr_format.c` (CAF-victara/platform_system_core).

The C file is shallowly embedded: each function becomes a Lean definition
over an explicit environment describing the outcomes of the system calls it
makes (open, ioctl BLKGETSIZE, lseek64, write, read, waitpid) together with
the bytes read from the device.  Pointer-level byte scans become functions
over a byte buffer `Nat → Nat` (each value taken mod 256, since the C code
reads raw `char`/word data).  Every definition follows the control flow of
the corresponding C function; traces record which external effects happened
so that claims about "never invokes", "without opening" are statable.
-/

set_option autoImplicit false

namespace FsMgr

/-! ## Constants from the C file -/

/-- `#define CRYPT_MAGIC 0xD0B5B1C4` (fs_mgr_format.c line 37). -/
def CRYPT_MAGIC : Nat := 0xD0B5B1C4

/-- `#define F2FS_SUPER_MAGIC 0xF2F52010` (line 39). -/
def F2FS_SUPER_MAGIC : Nat := 0xF2F52010

/-- `#define EXT4_SUPER_MAGIC 0xEF53` (line 40). -/
def EXT4_SUPER_MAGIC : Nat := 0xEF53

/-- `#define TOTAL_SECTORS 16` (line 96). -/
def TOTAL_SECTORS : Nat := 16

/-- Linux `EINVAL` errno value; `fs_mgr_do_format` initializes `rc = -EINVAL`. -/
def EINVAL : Int := 22

/-- Modelled from the spec: `sizeof(struct ext4_super_block)`.  The struct is
declared in `ext4.h`, which is not under `src/`; the ext4 on-disk superblock
is a fixed 1024-byte structure, and the spec speaks of "fixed-size
superblock-shaped structures laid end-to-end". -/
def EXT4_SB_SIZE : Nat := 1024

/-- Modelled from the spec: byte offset of the `s_magic` field inside
`struct ext4_super_block` (`ext4.h`, not under `src/`); in the ext4 on-disk
layout `s_magic` sits at offset 0x38. -/
def EXT4_MAGIC_OFF : Nat := 56

/-! ## Byte buffers and little-endian reads

A device prefix is a function `Nat → Nat`; byte `i` of the buffer is
`buf i % 256`.  `le32_at`/`le16_at` are the little-endian word reads the C
code performs through `__le32` / `__le16` pointers plus `le32_to_cpu`. -/

/-- Little-endian 32-bit read at byte offset `off`. -/
def le32_at (buf : Nat → Nat) (off : Nat) : Nat :=
  buf off % 256 + 256 * (buf (off + 1) % 256) +
    65536 * (buf (off + 2) % 256) + 16777216 * (buf (off + 3) % 256)

/-- Little-endian 16-bit read at byte offset `off`. -/
def le16_at (buf : Nat → Nat) (off : Nat) : Nat :=
  buf off % 256 + 256 * (buf (off + 1) % 256)

/-! ## Signature scanner (`is_f2fs`, `is_ext4`, `fs_mgr_identify_fs`) -/

/-- `is_f2fs` (lines 97–110): scan the 16 sector boundaries of the 8192-byte
prefix; match if the first little-endian 32-bit word of some sector equals
`F2FS_SUPER_MAGIC`.  The C `for` loop returns on the first hit; `List.any`
short-circuits the same way and computes the same answer. -/
def is_f2fs (block : Nat → Nat) : Bool :=
  (List.range TOTAL_SECTORS).any fun i => le32_at block (i * 512) == F2FS_SUPER_MAGIC

/-- `is_ext4` (lines 112–124): step a `struct ext4_super_block` pointer
through the 8192-byte window (`i = 0, 1024, …, 7168`, i.e. 8 boundaries) and
compare the `s_magic` field (a `__le16`, so the comparison value is the
little-endian 16-bit read, zero-extended) against `EXT4_SUPER_MAGIC`. -/
def is_ext4 (block : Nat → Nat) : Bool :=
  (List.range (TOTAL_SECTORS * 512 / EXT4_SB_SIZE)).any fun j =>
    le16_at block (j * EXT4_SB_SIZE + EXT4_MAGIC_OFF) == EXT4_SUPER_MAGIC

/-- Environment for `fs_mgr_identify_fs`: outcomes of `calloc`, `open`, and
whether `read` returned the full `TOTAL_SECTORS * 512` bytes, plus the bytes
actually read. -/
structure IdentifyEnv where
  allocOk : Bool
  openOk : Bool
  readFull : Bool
  buf : Nat → Nat

/-- `fs_mgr_identify_fs` (lines 129–162): returns 0 when the declared type's
scanner matches the bytes read from the device, −1 on any failure or
mismatch.  `strncmp(fs_type, "f2fs", 4)` compares the first four characters
(a shorter C string mismatches at its NUL), i.e. `fsType.take 4 = "f2fs"`. -/
def fs_mgr_identify_fs (fsType : String) (env : IdentifyEnv) : Int :=
  if !env.allocOk then -1
  else if !env.openOk then -1
  else if !env.readFull then -1
  else if (fsType.take 4 = "f2fs" && is_f2fs env.buf)
       || (fsType.take 4 = "ext4" && is_ext4 env.buf) then 0
  else -1

/-! ## Encryption-marker scanner (`fs_mgr_is_partition_encrypted`) -/

/-- `fstab->key_loc[0] == '/'`: the first character of the key-location C
string is a slash (an empty string has first character NUL). -/
def startsSlash (s : String) : Bool :=
  s.data.head? == some '/'

/-- Environment for `fs_mgr_is_partition_encrypted`: outcomes of the system
calls on whichever file gets opened.  `readVal` is `some v` when `read`
returned the full 4 bytes whose little-endian value is `v`, `none` on a
failed or short read.  `seekOk off` says whether `lseek64(fd, off, SEEK_SET)`
succeeds at that offset. -/
structure EncEnv where
  openKeyOk : Bool
  openBlkOk : Bool
  ioctlOk : Bool
  nrSec : Nat
  seekOk : Int → Bool
  readVal : Option Nat

/-- Result of `fs_mgr_is_partition_encrypted` plus a trace of which opens
were attempted. -/
structure EncResult where
  ret : Nat
  openedKey : Bool
  openedBlk : Bool
  deriving DecidableEq

/-- Footer offset computation shared by lines 67 and 197/203:
`((off64_t)sectors * 512) - CRYPT_FOOTER_OFFSET`, where `sectors` is an
`unsigned int` (hence `% 2^32`) and the arithmetic is signed 64-bit (exact
here, since `2^32 * 512 < 2^63`).  `fo` is `CRYPT_FOOTER_OFFSET`, a constant
from `cryptfs.h` (not under `src/`), kept as a parameter. -/
def footerOff (nrSec fo : Nat) : Int :=
  (nrSec % 2 ^ 32 : Nat) * 512 - fo

/-- `fs_mgr_is_partition_encrypted` (lines 44–90).  `encryptable` is the
result of `fs_mgr_is_encryptable(fstab)`; `keyLoc` is `fstab->key_loc`,
`fo` is `CRYPT_FOOTER_OFFSET`.  Every `goto out` path returns `ret`, which
stays 0 unless the 4 bytes read equal `CRYPT_MAGIC`. -/
def fs_mgr_is_partition_encrypted (encryptable : Bool) (keyLoc : String)
    (fo : Nat) (env : EncEnv) : EncResult :=
  if !encryptable then ⟨0, false, false⟩
  else if startsSlash keyLoc then
    if !env.openKeyOk then ⟨0, true, false⟩
    else match env.readVal with
      | none => ⟨0, true, false⟩
      | some v => ⟨if v % 2 ^ 32 = CRYPT_MAGIC then 1 else 0, true, false⟩
  else if keyLoc = "footer" then
    if !env.openBlkOk then ⟨0, false, true⟩
    else if !env.ioctlOk then ⟨0, false, true⟩
    else if !env.seekOk (footerOff env.nrSec fo) then ⟨0, false, true⟩
    else match env.readVal with
      | none => ⟨0, false, true⟩
      | some v => ⟨if v % 2 ^ 32 = CRYPT_MAGIC then 1 else 0, false, true⟩
  else ⟨0, false, false⟩

/-! ## ext4 format path (`format_ext4`) -/

/-- Environment for `format_ext4`: outcomes of `open`, `ioctl(BLKGETSIZE)`
(with the sector count it reports), `lseek64` per offset, the (ignored)
result of the footer `write`, and the value `make_ext4fs_internal` would
return if invoked. -/
structure ExtEnv where
  openOk : Bool
  ioctlOk : Bool
  nrSec : Nat
  seekOk : Int → Bool
  writeOk : Bool
  builderRc : Int

/-- Trace of one `format_ext4` call: its return value, whether
`make_ext4fs_internal` was invoked and with what `info.len`, the offset
passed to the footer-wipe `lseek64` (if reached), and whether the footer
`write` was issued. -/
structure Ext4Trace where
  rc : Int
  builderInvoked : Bool
  builderLen : Option Int
  wipeSeekOffset : Option Int
  wipeWriteIssued : Bool
  deriving DecidableEq

/-- `format_ext4` (lines 167–226).  Control flow: open; ioctl BLKGETSIZE;
`off = nr_sec * 512`; when `needs_footer`, `off -= CRYPT_FOOTER_OFFSET`,
seek to `off` (failure returns −1) and `write` a zeroed footer — the write's
return value is discarded by the C code, so `env.writeOk` never affects the
result; then `info.len = (off64_t)nr_sec * 512` (the full device length:
the decremented `off` is not used here) and `make_ext4fs_internal`'s return
value is returned. -/
def format_ext4 (needsFooter : Bool) (fo : Nat) (env : ExtEnv) : Ext4Trace :=
  if !env.openOk then ⟨-1, false, none, none, false⟩
  else if !env.ioctlOk then ⟨-1, false, none, none, false⟩
  else
    let total : Int := (env.nrSec % 2 ^ 32 : Nat) * 512
    if needsFooter then
      let off : Int := footerOff env.nrSec fo
      if !env.seekOk off then ⟨-1, false, none, some off, false⟩
      else ⟨env.builderRc, true, some total, some off, true⟩
    else ⟨env.builderRc, true, some total, none, false⟩

/-! ## f2fs format path (`format_f2fs`) -/

/-- One `waitpid(pid, &rc, 0)` outcome, as the loop at lines 247–263
distinguishes them: the returned pid does not match the child (including
`waitpid` returning −1 on error); the child exited normally with the given
8-bit exit status (`WIFEXITED` true, `s` the raw status byte); or the pid
matched but `WIFEXITED` is false (e.g. the child was killed by a signal). -/
inductive WaitRes where
  | wrongPid
  | exited (s : Nat)
  | notExited
  deriving DecidableEq

/-- The `for(;;)` wait loop of `format_f2fs`, run over the finite sequence
of `waitpid` outcomes the kernel delivers.  Returns `some (rc, n)` when the
loop breaks after consuming `n` outcomes with final `rc`; `none` when the
sequence is exhausted with the loop still running.  A wrong pid sets
`rc = -1` and breaks; a normal exit maps status 0 to 0 and anything else to
−1 and breaks (`WEXITSTATUS` yields the 8-bit status, modelled `s % 256`);
otherwise the loop logs and waits again. -/
def runWaitLoop : List WaitRes → Option (Int × Nat)
  | [] => none
  | WaitRes.wrongPid :: _ => some (-1, 1)
  | WaitRes.exited s :: _ => some (if s % 256 = 0 then 0 else -1, 1)
  | WaitRes.notExited :: rest =>
      (runWaitLoop rest).map fun p => (p.1, p.2 + 1)

/-- `snprintf(buf, cap, "%d", n)`: the decimal rendering of `n`, truncated
to `cap - 1` characters (cap includes the terminating NUL). -/
def snprintf_d (cap : Nat) (n : Int) : String :=
  (toString n).take (cap - 1)

/-- Trace of one `format_f2fs` call: the argv built for `/sbin/mkfs.f2fs`
and the return value (`none` when the wait loop had not terminated on the
given outcome sequence). -/
structure F2fsResult where
  args : List String
  rc : Option Int
  deriving DecidableEq

/-- `format_f2fs` (lines 228–266): `footer = needs_footer ?
CRYPT_FOOTER_OFFSET : 0`, rendered with `snprintf` into a 10-byte buffer;
argv is `{"/sbin/mkfs.f2fs", "-r", footer_size, fs_blkdev, NULL}`; then
fork/execv and the wait loop determine `rc`. -/
def format_f2fs (blkdev : String) (needsFooter : Bool) (fo : Nat)
    (ws : List WaitRes) : F2fsResult :=
  let footer : Int := if needsFooter then fo else 0
  let args := ["/sbin/mkfs.f2fs", "-r", snprintf_d 10 footer, blkdev]
  ⟨args, (runWaitLoop ws).map Prod.fst⟩

/-! ## Format orchestrator (`fs_mgr_do_format`) -/

/-- Which branch of the dispatch at lines 277–283 was taken. -/
inductive FormatPath where
  | f2fs
  | ext4
  | unsupported
  deriving DecidableEq

/-- Result of `fs_mgr_do_format`: return value (`none` only when the f2fs
wait loop had not terminated), the branch taken, and whether this function
(or `format_ext4` on its behalf) attempted to open the block device —
`format_f2fs` opens nothing itself and the unsupported branch performs no
device I/O at all. -/
structure DoFormatResult where
  rc : Option Int
  path : FormatPath
  deviceOpened : Bool
  deriving DecidableEq

/-- `fs_mgr_do_format` (lines 268–286).  `keyLoc` is `fstab->key_loc`
(`none` models a NULL pointer, short-circuited by `fstab->key_loc && ...`);
`needs_footer = key_loc && !strcmp(key_loc, "footer")`.  Dispatch is on
`strncmp(fs_type, ..., 4)`, i.e. the first four characters; unrecognized
types leave `rc = -EINVAL` untouched and do nothing else. -/
def fs_mgr_do_format (fsType : String) (keyLoc : Option String)
    (blkdev : String) (fo : Nat) (eenv : ExtEnv) (ws : List WaitRes) :
    DoFormatResult :=
  let needsFooter : Bool := match keyLoc with
    | some k => k = "footer"
    | none => false
  if fsType.take 4 = "f2fs" then
    ⟨(format_f2fs blkdev needsFooter fo ws).rc, FormatPath.f2fs, false⟩
  else if fsType.take 4 = "ext4" then
    ⟨some (format_ext4 needsFooter fo eenv).rc, FormatPath.ext4, true⟩
  else
    ⟨some (-EINVAL), FormatPath.unsupported, false⟩

/-! ## Helper lemmas -/

/-- Taking at least `s.length` characters of a string returns the string. -/
theorem string_take_of_le (s : String) (n : Nat) (h : s.length ≤ n) :
    s.take n = s := by
  rw [String.take_eq]
  cases s with
  | mk l => exact congrArg String.mk (List.take_of_length_le h)

/-- Decimal rendering of a natural below `10 ^ 9` fits in 9 characters, so
the 10-byte `snprintf` buffer does not truncate it. -/
theorem snprintf_d_eq (n : Nat) (h : n < 10 ^ 9) :
    snprintf_d 10 (n : Int) = toString (n : Int) := by
  have he : toString (n : Int) = Nat.repr n := rfl
  have hl : (toString (n : Int)).length ≤ 9 := by
    rw [he]; exact Nat.repr_length n 9 (by omega) h
  exact string_take_of_le _ _ hl

/-! ## Claim theorems -/

/-- C3: with declared type "f2fs" and a successfully read 8192-byte prefix,
`fs_mgr_identify_fs` reports a match (returns 0) iff some sector boundary
`i < 16` has its first 4 bytes, read as a little-endian 32-bit integer,
equal to `0xF2F52010`. -/
theorem C3_f2fs_scan_iff (buf : Nat → Nat) :
    fs_mgr_identify_fs "f2fs" ⟨true, true, true, buf⟩ = 0 ↔
      ∃ i, i < 16 ∧ le32_at buf (i * 512) = F2FS_SUPER_MAGIC := by
  have h1 : ("f2fs".take 4 = "f2fs") := by decide
  have h2 : ¬ ("f2fs".take 4 = "ext4") := by decide
  simp [fs_mgr_identify_fs, h1, h2, is_f2fs, TOTAL_SECTORS, F2FS_SUPER_MAGIC,
    List.any_eq_true, List.mem_range]

/-- C4: with declared type "ext4" and a successfully read 8192-byte prefix,
`fs_mgr_identify_fs` reports a match (returns 0) iff some superblock-struct
boundary (multiples of `sizeof(struct ext4_super_block)` inside the window)
has its `s_magic` field, read little-endian, equal to `0xEF53`. -/
theorem C4_ext4_scan_iff (buf : Nat → Nat) :
    fs_mgr_identify_fs "ext4" ⟨true, true, true, buf⟩ = 0 ↔
      ∃ j, j * EXT4_SB_SIZE < TOTAL_SECTORS * 512 ∧
        le16_at buf (j * EXT4_SB_SIZE + EXT4_MAGIC_OFF) = EXT4_SUPER_MAGIC := by
  have h1 : ¬ ("ext4".take 4 = "f2fs") := by decide
  have h2 : ("ext4".take 4 = "ext4") := by decide
  simp only [fs_mgr_identify_fs, h1, h2, is_ext4, TOTAL_SECTORS, EXT4_SB_SIZE,
    EXT4_MAGIC_OFF, EXT4_SUPER_MAGIC]
  simp [List.any_eq_true, List.mem_range]
  constructor
  · rintro ⟨j, hj, hm⟩
    exact ⟨j, by omega, hm⟩
  · rintro ⟨j, hj, hm⟩
    exact ⟨j, by omega, hm⟩

/-- C5: `fs_mgr_is_partition_encrypted` returns 1 iff the code path reaches
the 4-byte read (encryptable, and either the key-location file opened, or
the footer path's open/ioctl/seek all succeeded) and the bytes read equal
`CRYPT_MAGIC` exactly; otherwise — any open, seek, or read failure, any
non-matching value, or an unlisted key-location shape — it returns 0, and
it never returns any value other than 0 or 1. -/
theorem C5_enc_marker_iff (encryptable : Bool) (keyLoc : String) (fo : Nat)
    (env : EncEnv) :
    ((fs_mgr_is_partition_encrypted encryptable keyLoc fo env).ret = 1 ↔
      encryptable = true ∧
      ((startsSlash keyLoc = true ∧ env.openKeyOk = true) ∨
        (startsSlash keyLoc = false ∧ keyLoc = "footer" ∧
          env.openBlkOk = true ∧ env.ioctlOk = true ∧
          env.seekOk (footerOff env.nrSec fo) = true)) ∧
      (∃ v, env.readVal = some v ∧ v % 2 ^ 32 = CRYPT_MAGIC)) ∧
    ((fs_mgr_is_partition_encrypted encryptable keyLoc fo env).ret = 0 ∨
      (fs_mgr_is_partition_encrypted encryptable keyLoc fo env).ret = 1) := by
  rcases env with ⟨ok, ob, io, ns, sk, rv⟩
  unfold fs_mgr_is_partition_encrypted
  cases encryptable with
  | false => simp
  | true =>
    cases hs : startsSlash keyLoc with
    | true =>
      cases ok with
      | false => simp [hs]
      | true =>
        rcases rv with _ | v
        · simp [hs]
        · by_cases hv : v % 2 ^ 32 = CRYPT_MAGIC <;> simp [hs, hv] <;> tauto
    | false =>
      by_cases hk : keyLoc = "footer"
      · cases ob with
        | false => simp [hs, hk]
        | true =>
          cases io with
          | false => simp [hs, hk]
          | true =>
            by_cases hsk : sk (footerOff ns fo) = true
            · rcases rv with _ | v
              · simp [hs, hk, hsk]
              · by_cases hv : v % 2 ^ 32 = CRYPT_MAGIC <;>
                  simp [hs, hk, hsk, hv] <;> tauto
            · simp [hs, hk, hsk]
      · simp [hs, hk]

/-- C10: for an encryptable descriptor whose key location neither begins
with a slash nor equals "footer" (e.g. the empty string), the scanner
returns 0 without attempting to open the key-location file or the block
device. -/
theorem C10_unlisted_keyloc (keyLoc : String) (fo : Nat) (env : EncEnv)
    (h1 : startsSlash keyLoc = false) (h2 : keyLoc ≠ "footer") :
    fs_mgr_is_partition_encrypted true keyLoc fo env =
      ⟨0, false, false⟩ := by
  unfold fs_mgr_is_partition_encrypted
  simp [h1, h2]

/-- Witness for C10 at the empty key-location string, with an environment
whose device would have answered every system call and even holds the magic
on disk: the scanner still reports 0 and opens nothing. -/
theorem C10_unlisted_keyloc_witness :
    startsSlash "" = false ∧ "" ≠ "footer" ∧
      fs_mgr_is_partition_encrypted true "" 16384
        ⟨true, true, true, 2048, fun _ => true, some CRYPT_MAGIC⟩ =
        ⟨0, false, false⟩ :=
  ⟨by decide, by decide,
    C10_unlisted_keyloc "" 16384 _ (by decide) (by decide)⟩

/-- C1 (code-bug evaluation): at the spec's own test point — footer
required, `nr_sec = 2048` (total 1048576 bytes), `CRYPT_FOOTER_OFFSET =
16384`, all system calls succeeding — the footer wipe does seek to the
reduced offset `1048576 − 16384`, yet the builder is invoked with
`info.len` equal to the full device length 1048576, not the usable
`1048576 − 16384` that the claim (and the code's own comments, lines 187
and 214) call for. -/
theorem C1_builder_gets_full_length :
    (format_ext4 true 16384 ⟨true, true, 2048, fun _ => true, true, 0⟩).wipeSeekOffset
        = some (1048576 - 16384) ∧
    (format_ext4 true 16384 ⟨true, true, 2048, fun _ => true, true, 0⟩).builderLen
        = some 1048576 ∧
    (1048576 : Int) ≠ 1048576 - 16384 := by
  refine ⟨by decide, by decide, by decide⟩

/-- C2 counterexample: with open, ioctl and seek succeeding but the footer
`write` failing, `format_ext4` still invokes the ext4 builder (and returns
the builder's status 0): the write's return value is discarded at line 210,
so a failed write does not abort the operation, refuting the claim as
stated.  (`format_ext4` never consults `env.writeOk`, exactly as the C code
never checks `write`'s result.) -/
theorem C2_write_failure_counterexample :
    (format_ext4 true 16384 ⟨true, true, 2048, fun _ => true, false, 0⟩).builderInvoked
        = true ∧
    (format_ext4 true 16384 ⟨true, true, 2048, fun _ => true, false, 0⟩).rc = 0 := by
  refine ⟨by decide, by decide⟩

/-- C2 (amended): in a footer-requiring ext4 format with the device opened
and its size read, a failed seek to `total_bytes − CRYPT_FOOTER_OFFSET`
aborts with −1 before the builder is invoked (and before any footer write);
a failed write, by contrast, is not detected — when the seek succeeds the
builder is invoked regardless of the write's outcome. -/
theorem C2_seek_fail_aborts_write_fail_ignored (fo : Nat) (env : ExtEnv)
    (hopen : env.openOk = true) (hioctl : env.ioctlOk = true) :
    (env.seekOk (footerOff env.nrSec fo) = false →
      format_ext4 true fo env =
        ⟨-1, false, none, some (footerOff env.nrSec fo), false⟩) ∧
    (env.seekOk (footerOff env.nrSec fo) = true →
      (format_ext4 true fo env).builderInvoked = true) := by
  constructor
  · intro hseek
    unfold format_ext4
    simp [hopen, hioctl, hseek]
  · intro hseek
    unfold format_ext4
    simp [hopen, hioctl, hseek]

/-- Witness for C2 (amended), first part: a concrete environment whose
every seek fails; the format aborts with −1, builder never invoked. -/
theorem C2_seek_fail_witness :
    format_ext4 true 16384 ⟨true, true, 2048, fun _ => false, true, 0⟩ =
      ⟨-1, false, none, some (footerOff 2048 16384), false⟩ :=
  (C2_seek_fail_aborts_write_fail_ignored 16384
    ⟨true, true, 2048, fun _ => false, true, 0⟩ rfl rfl).1 rfl

/-- C8: when the device is smaller than the footer region
(`total_bytes < CRYPT_FOOTER_OFFSET ≤ 2^63`), the computed offset
`total_bytes − CRYPT_FOOTER_OFFSET` is negative, its 64-bit wrap is the
huge value `2^64 − (fo − total_bytes) ≥ 2^63`, and `format_ext4` performs
no validation: with every system call succeeding it passes exactly that
underflowed offset to the seek and still proceeds to invoke the builder. -/
theorem C8_footer_underflow_unvalidated (fo : Nat) (env : ExtEnv)
    (hlt : (env.nrSec % 2 ^ 32) * 512 < fo) (hfo : fo ≤ 2 ^ 63)
    (hopen : env.openOk = true) (hioctl : env.ioctlOk = true)
    (hseek : ∀ o, env.seekOk o = true) :
    footerOff env.nrSec fo < 0 ∧
    footerOff env.nrSec fo % 2 ^ 64 =
      2 ^ 64 - ((fo : Int) - (env.nrSec % 2 ^ 32 : Nat) * 512) ∧
    2 ^ 63 ≤ footerOff env.nrSec fo % 2 ^ 64 ∧
    (format_ext4 true fo env).wipeSeekOffset = some (footerOff env.nrSec fo) ∧
    (format_ext4 true fo env).builderInvoked = true := by
  have hoff : footerOff env.nrSec fo = ((env.nrSec % 2 ^ 32 : Nat) : Int) * 512 - fo := rfl
  have hp64 : (2 : Int) ^ 64 = 18446744073709551616 := by norm_num
  have hp63 : (2 : Int) ^ 63 = 9223372036854775808 := by norm_num
  have hfo64 : ((fo : Int)) ≤ 9223372036854775808 := by
    have := hfo
    omega
  have hltI : ((env.nrSec % 2 ^ 32 : Nat) : Int) * 512 < fo := by
    exact_mod_cast hlt
  refine ⟨by omega, ?_, ?_, ?_, ?_⟩
  · rw [hoff, hp64]; omega
  · rw [hoff, hp63, hp64]; omega
  · unfold format_ext4
    simp [hopen, hioctl, hseek]
  · unfold format_ext4
    simp [hopen, hioctl, hseek]

/-- Witness for C8: a one-sector device (512 bytes) with a 16384-byte
footer region; all syscalls succeed, the offset underflows to −15872,
wrapping to 2^64 − 15872, and the builder is still invoked. -/
theorem C8_footer_underflow_witness :
    footerOff 1 16384 < 0 ∧
    footerOff 1 16384 % 2 ^ 64 =
      2 ^ 64 - ((16384 : Int) - ((1 : Nat) % 2 ^ 32 : Nat) * 512) ∧
    2 ^ 63 ≤ footerOff 1 16384 % 2 ^ 64 ∧
    (format_ext4 true 16384 ⟨true, true, 1, fun _ => true, true, 0⟩).wipeSeekOffset
        = some (footerOff 1 16384) ∧
    (format_ext4 true 16384 ⟨true, true, 1, fun _ => true, true, 0⟩).builderInvoked
        = true :=
  C8_footer_underflow_unvalidated 16384 ⟨true, true, 1, fun _ => true, true, 0⟩
    (by decide) (by norm_num) rfl rfl (fun _ => rfl)

/-- C6: `fs_mgr_do_format` dispatches solely on the first four characters
of the declared type: a "f2fs"-prefixed type takes the f2fs subprocess
path, an "ext4"-prefixed type takes the ext4 builder path (so neither ever
takes the other's), and any other type string yields `-EINVAL` on the
unsupported path with no device opened and no device I/O. -/
theorem C6_dispatch_on_type_head4 (fsType : String) (keyLoc : Option String)
    (blkdev : String) (fo : Nat) (eenv : ExtEnv) (ws : List WaitRes) :
    (fs_mgr_do_format fsType keyLoc blkdev fo eenv ws).path =
      (if fsType.take 4 = "f2fs" then FormatPath.f2fs
        else if fsType.take 4 = "ext4" then FormatPath.ext4
        else FormatPath.unsupported) ∧
    (fsType.take 4 ≠ "f2fs" → fsType.take 4 ≠ "ext4" →
      fs_mgr_do_format fsType keyLoc blkdev fo eenv ws =
        ⟨some (-EINVAL), FormatPath.unsupported, false⟩) := by
  unfold fs_mgr_do_format
  by_cases h1 : fsType.take 4 = "f2fs" <;>
    by_cases h2 : fsType.take 4 = "ext4" <;>
    simp [h1, h2]

/-- Witness for C6 at the spec's example: type "xfs" returns `-EINVAL` on
the unsupported path, device never opened. -/
theorem C6_dispatch_witness :
    fs_mgr_do_format "xfs" (some "footer") "d" 16384
        ⟨true, true, 2048, fun _ => true, true, 0⟩ [] =
      ⟨some (-EINVAL), FormatPath.unsupported, false⟩ :=
  (C6_dispatch_on_type_head4 "xfs" (some "footer") "d" 16384
    ⟨true, true, 2048, fun _ => true, true, 0⟩ []).2 (by decide) (by decide)

/-- C7: `format_f2fs` builds the subprocess argv
`mkfs.f2fs -r <footer> <device>` with footer equal to
`CRYPT_FOOTER_OFFSET` when a footer is required and 0 otherwise (the
`snprintf` into the 10-byte buffer does not truncate while the offset is
below `10^9`), and when the child exits with 8-bit status `s` the overall
result is 0 for `s = 0` and −1 for every other `s` — never any other
value. -/
theorem C7_f2fs_args_and_status (dev : String) (nf : Bool) (fo s : Nat)
    (hfo : fo < 10 ^ 9) (hs : s < 256) :
    (format_f2fs dev nf fo [WaitRes.exited s]).args =
      ["/sbin/mkfs.f2fs", "-r", toString (if nf then (fo : Int) else 0), dev] ∧
    (format_f2fs dev nf fo [WaitRes.exited s]).rc =
      some (if s = 0 then 0 else -1) ∧
    ((format_f2fs dev nf fo [WaitRes.exited s]).rc = some 0 ∨
      (format_f2fs dev nf fo [WaitRes.exited s]).rc = some (-1)) := by
  have hmod : s % 256 = s := Nat.mod_eq_of_lt hs
  have hsnp : snprintf_d 10 (if nf then (fo : Int) else 0) =
      toString (if nf then (fo : Int) else 0) := by
    cases nf with
    | true => simpa using snprintf_d_eq fo hfo
    | false => simpa using snprintf_d_eq 0 (by norm_num)
  refine ⟨?_, ?_, ?_⟩
  · simp [format_f2fs, hsnp]
  · simp [format_f2fs, runWaitLoop, hmod]
  · by_cases h0 : s = 0 <;> simp [format_f2fs, runWaitLoop, hmod, h0]

/-- Witness for C7: device "d", no footer, child exits 0 — argv is
`["/sbin/mkfs.f2fs", "-r", "0", "d"]` and the result is 0. -/
theorem C7_f2fs_witness :
    (format_f2fs "d" false 16384 [WaitRes.exited 0]).args =
      ["/sbin/mkfs.f2fs", "-r", toString (if false then (16384 : Int) else 0), "d"] ∧
    (format_f2fs "d" false 16384 [WaitRes.exited 0]).rc =
      some (if 0 = 0 then 0 else -1) ∧
    ((format_f2fs "d" false 16384 [WaitRes.exited 0]).rc = some 0 ∨
      (format_f2fs "d" false 16384 [WaitRes.exited 0]).rc = some (-1)) :=
  C7_f2fs_args_and_status "d" false 16384 0 (by norm_num) (by norm_num)

/-- C9: the wait loop terminates on every kernel-consistent sequence of
`waitpid` outcomes.  The kernel guarantee is that a pid-matching result
with `WIFEXITED` false (the only outcome that makes the loop retry) reaps
the child, so the next `waitpid` returns a non-matching pid; under that
hypothesis the loop consumes at most 2 outcomes and yields 0 or −1.
Moreover a non-matching pid is never retried: it breaks with −1 on the
spot, after exactly one wait. -/
theorem C9_wait_loop_terminates (w1 w2 : WaitRes) (rest : List WaitRes)
    (hreap : w1 = WaitRes.notExited → w2 = WaitRes.wrongPid) :
    (∃ r n, runWaitLoop (w1 :: w2 :: rest) = some (r, n) ∧ n ≤ 2 ∧
      (r = 0 ∨ r = -1)) ∧
    runWaitLoop (WaitRes.wrongPid :: w2 :: rest) = some (-1, 1) := by
  constructor
  · cases w1 with
    | wrongPid => exact ⟨-1, 1, rfl, by omega, Or.inr rfl⟩
    | exited s =>
      by_cases h0 : s % 256 = 0
      · exact ⟨0, 1, by simp [runWaitLoop, h0], by omega, Or.inl rfl⟩
      · exact ⟨-1, 1, by simp [runWaitLoop, h0], by omega, Or.inr rfl⟩
    | notExited =>
      rw [hreap rfl]
      exact ⟨-1, 2, by simp [runWaitLoop], by omega, Or.inr rfl⟩
  · rfl

/-- Witness for C9 at the worst kernel-consistent case: the child is
killed by a signal (pid-matching, `WIFEXITED` false), the next wait then
fails with a non-matching pid; the loop stops after 2 waits with −1. -/
theorem C9_wait_loop_witness :
    (∃ r n, runWaitLoop
        (WaitRes.notExited :: WaitRes.wrongPid :: []) = some (r, n) ∧
      n ≤ 2 ∧ (r = 0 ∨ r = -1)) ∧
    runWaitLoop (WaitRes.wrongPid :: WaitRes.wrongPid :: []) = some (-1, 1) :=
  C9_wait_loop_terminates WaitRes.notExited WaitRes.wrongPid []
    (fun _ => rfl)

end FsMgr
